import Mathlib

/-!
Verification development for the NL-ProjectAnalyzer scanner
(src/project_analyzer.py).  The definitions below are a shallow
embedding of the core of that program: the ignore-pattern engine
(IgnoreMatcher), the per-file measurement routine (calculate_stats),
the FileStats record with its merge operation (FileStats.add), the
binary-file classifier, and the scan driver from main.

Modelling conventions:
* Python machine integers are Nat (all quantities here are
  non-negative counts and sizes; no overflow is possible in Python).
* Python floats appearing in summaries (mean, median, rounded
  complexity averages) are modelled as exact rationals; round(x, 2)
  is modelled as round-half-up at two decimals.  No proved property
  depends on the rounding mode.
* Fallible I/O is modelled with Option: a None stat result models
  os.stat raising, a None byte string models open(.., "rb") raising,
  a None text models open(.., "r") raising, and a None ignore-file
  content models an unreadable pattern source.  The try/except
  blocks of the source become matches on these options.
* collections.Counter is modelled by the list of counted occurrences
  (each update appends the occurrences being added); the counter
  value at key w is the number of occurrences of w in the list, and
  Python dict equality of two counters is equality of those counts
  at every key (countEq below).
* Paths are handled root-relatively: os.path.relpath(join(root, p),
  root) is the identity in this model, and os.sep is "/", so the
  replace(os.sep, "/") in is_ignored is the identity as well.
-/

-- ==========================================
-- String / character utilities (Python semantics)
-- ==========================================

/-- Python string.whitespace, the six ASCII whitespace characters
removed by the char_count_no_space translate call and used by
str.split and str.strip. -/
def isPyWs (c : Char) : Bool :=
  c == ' ' || c == '\t' || c == '\n' || c == '\r' ||
  c == Char.ofNat 11 || c == Char.ofNat 12

/-- Python string.punctuation: exactly the ASCII ranges 33-47, 58-64,
91-96 and 123-126. -/
def isPunct (c : Char) : Bool :=
  (33 ≤ c.toNat && c.toNat ≤ 47) || (58 ≤ c.toNat && c.toNat ≤ 64) ||
  (91 ≤ c.toNat && c.toNat ≤ 96) || (123 ≤ c.toNat && c.toNat ≤ 126)

/-- ASCII lower-casing, as str.lower does on the extensions handled
here. -/
def charLower (c : Char) : Char :=
  if 65 ≤ c.toNat && c.toNat ≤ 90 then Char.ofNat (c.toNat + 32) else c

def strToLower (s : String) : String := String.mk (s.data.map charLower)

/-- Does the first list start with the second one? -/
def listStarts : List Char → List Char → Bool
  | _, [] => true
  | [], _ :: _ => false
  | c :: cs, p :: ps => c == p && listStarts cs ps

/-- Python str.startswith. -/
def strStartsWith (s t : String) : Bool := listStarts s.data t.data

/-- Python str.endswith. -/
def strEndsWith (s t : String) : Bool := listStarts s.data.reverse t.data.reverse

/-- Python s.rstrip(sep) for the directory separator, used on ignore
patterns: drops every trailing "/". -/
def rstripSlash (s : String) : String :=
  String.mk ((s.data.reverse.dropWhile (fun c => c == '/')).reverse)

/-- Python str.strip() (both ends, whitespace). -/
def pyStrip (s : String) : String :=
  String.mk (((s.data.dropWhile isPyWs).reverse.dropWhile isPyWs).reverse)

/-- The part of a character list after its last slash. -/
def afterLastSlash (l : List Char) : List Char :=
  (l.reverse.takeWhile (fun c => c != '/')).reverse

/-- Python os.path.basename with "/" as separator. -/
def pyBasename (p : String) : String := String.mk (afterLastSlash p.data)

/-- The extension part of Python os.path.splitext: the suffix from the
last dot of the base name, provided some non-dot character of the base
name comes before that dot (so ".bashrc" has no extension). -/
def pyExt (p : String) : String :=
  let base := afterLastSlash p.data
  let rev := base.reverse
  let afterRev := rev.takeWhile (fun c => c != '.')
  match rev.dropWhile (fun c => c != '.') with
  | [] => ""
  | _ :: beforeRev =>
    if beforeRev.any (fun c => c != '.') then
      String.mk ('.' :: afterRev.reverse)
    else ""

/-- Split a character list at line-feed characters, keeping empty
segments; models iterating over the lines of an opened text file
(each yielded line is stripped by the caller, so keeping or dropping
the trailing newline is immaterial). -/
def splitLF : List Char → List Char → List String
  | [], cur => [String.mk cur.reverse]
  | c :: rest, cur =>
    if c == '\n' then String.mk cur.reverse :: splitLF rest []
    else splitLF rest (c :: cur)

/-- The line-boundary characters recognised by Python str.splitlines
(besides the two-character sequence CR LF). -/
def isLineBreakChar (c : Char) : Bool :=
  c == '\n' || c == '\r' || c == Char.ofNat 11 || c == Char.ofNat 12 ||
  c == Char.ofNat 28 || c == Char.ofNat 29 || c == Char.ofNat 30 ||
  c == Char.ofNat 133 || c == Char.ofNat 8232 || c == Char.ofNat 8233

def splitlinesGo : List Char → List Char → List String
  | [], cur => if cur.isEmpty then [] else [String.mk cur.reverse]
  | '\r' :: '\n' :: rest, cur => String.mk cur.reverse :: splitlinesGo rest []
  | c :: rest, cur =>
    if isLineBreakChar c then String.mk cur.reverse :: splitlinesGo rest []
    else splitlinesGo rest (c :: cur)

/-- Python str.splitlines: no trailing empty line artifact. -/
def pySplitlines (s : String) : List String := splitlinesGo s.data []

def pySplitGo : List Char → List Char → List String
  | [], cur => if cur.isEmpty then [] else [String.mk cur.reverse]
  | c :: rest, cur =>
    if isPyWs c then
      if cur.isEmpty then pySplitGo rest []
      else String.mk cur.reverse :: pySplitGo rest []
    else pySplitGo rest (c :: cur)

/-- Python str.split() with no argument: split on whitespace runs,
never producing empty words. -/
def pySplit (l : List Char) : List String := pySplitGo l []

/-- Shell-style glob matching as performed by fnmatch.fnmatch on a
POSIX system: "*" matches any sequence, "?" any single character, and
other characters match themselves.  (Character classes are not
modelled; no pattern in this development uses them.)  The first
argument is the pattern, the second the candidate string. -/
def globMatch : List Char → List Char → Bool
  | [], s => s.isEmpty
  | '*' :: ps, s => (s.tails).any (fun t => globMatch ps t)
  | c :: ps, s =>
    match s with
    | [] => false
    | c2 :: cs => (c == '?' || c == c2) && globMatch ps cs

/-- fnmatch.fnmatch(name, pattern). -/
def fnmatch (name pattern : String) : Bool := globMatch pattern.data name.data

-- ==========================================
-- Counter model
-- ==========================================

/-- Python dict equality of two counters in the occurrence-list
model: the same count at every key. -/
def countEq (a b : List String) : Bool :=
  (a ++ b).all (fun k => a.count k == b.count k)

-- ==========================================
-- Constants
-- ==========================================

def BINARY_EXTENSIONS : List String :=
  [".png", ".jpg", ".jpeg", ".gif", ".ico", ".pdf", ".zip", ".tar", ".gz",
   ".exe", ".dll", ".so", ".bin", ".dat", ".mp3", ".mp4", ".avi", ".mov",
   ".woff", ".woff2", ".ttf", ".eot"]

def BLOCK_SIZE : Nat := 4096

-- ==========================================
-- Data model
-- ==========================================

/-- Result of os.stat: byte size and the optional st_blocks field. -/
structure StatResult where
  st_size : Nat
  st_blocks : Option Nat
deriving DecidableEq

/-- What lizard.analyze_file returns when it succeeds: the cyclomatic
complexity of each analysed function and the average complexity. -/
structure LizardAnalysis where
  function_list : List Nat
  average_cyclomatic_complexity : ℚ
deriving DecidableEq

/-- One file as the scanner can observe it.  Each field models the
outcome of one fallible operation of the source: os.stat, reading the
first bytes via open("rb"), reading the decoded text via open("r",
errors="ignore"), and lizard.analyze_file (None when the call would
raise). -/
structure FSFile where
  stat : Option StatResult
  bytes : Option (List Nat)
  text : Option String
  lizard : Option LizardAnalysis
deriving DecidableEq

/-- The min/max/mean/median dictionary produced by get_list_stats. -/
structure SummaryStats where
  min : Nat
  max : Nat
  mean : ℚ
  median : ℚ
deriving DecidableEq

/-- The FileStats class.  skipped is a Python bool that the merge
turns into an int counter; both are modelled as Nat (False = 0,
True = 1), which matches Python equality since False == 0 and
True == 1 there.  stats_summary is the dict that is either empty
(none) or holds the line-length summary. -/
structure FileStats where
  filepath : Option String := none
  relpath : Option String := none
  filename : String := ""
  count : Nat := 0
  size : Nat := 0
  disk_usage : Nat := 0
  char_count : Nat := 0
  char_count_no_space : Nat := 0
  line_count : Nat := 0
  word_counter : List String := []
  lines_lengths : List Nat := []
  extensions : List String := []
  skipped : Nat := 0
  stats_summary : Option SummaryStats := none
  complexity_avg : ℚ := 0
  complexity_max : Nat := 0
  functions_count : Nat := 0
deriving DecidableEq

/-- FileStats() with no file path, as used for aggregate totals. -/
def FileStats.empty : FileStats := {}

/-- FileStats.add: fold the other record into this one. -/
def FileStats.add (self other : FileStats) : FileStats :=
  { self with
    count := self.count + other.count
    size := self.size + other.size
    disk_usage := self.disk_usage + other.disk_usage
    char_count := self.char_count + other.char_count
    char_count_no_space := self.char_count_no_space + other.char_count_no_space
    line_count := self.line_count + other.line_count
    word_counter := self.word_counter ++ other.word_counter
    lines_lengths := self.lines_lengths ++ other.lines_lengths
    extensions := self.extensions ++ other.extensions
    complexity_max :=
      if other.complexity_max > self.complexity_max then other.complexity_max
      else self.complexity_max
    skipped := if other.skipped ≠ 0 then self.skipped + 1 else self.skipped }

/-- Python attribute-wise equality of two FileStats records, with the
two Counter fields compared as Python dicts (countEq). -/
def pyStatsEq (a b : FileStats) : Bool :=
  decide (a.filepath = b.filepath) && decide (a.relpath = b.relpath) &&
  decide (a.filename = b.filename) && decide (a.count = b.count) &&
  decide (a.size = b.size) && decide (a.disk_usage = b.disk_usage) &&
  decide (a.char_count = b.char_count) &&
  decide (a.char_count_no_space = b.char_count_no_space) &&
  decide (a.line_count = b.line_count) &&
  countEq a.word_counter b.word_counter &&
  decide (a.lines_lengths = b.lines_lengths) &&
  countEq a.extensions b.extensions &&
  decide (a.skipped = b.skipped) &&
  decide (a.stats_summary = b.stats_summary) &&
  decide (a.complexity_avg = b.complexity_avg) &&
  decide (a.complexity_max = b.complexity_max) &&
  decide (a.functions_count = b.functions_count)

/-- The JSON-serialisable dictionary built by FileStats.to_dict. -/
structure FileDict where
  path : Option String
  name : String
  ext : String
  size : Nat
  lines : Nat
  chars : Nat
  words : Nat
  avg_line_len : ℚ
  is_binary : Nat
  complexity_avg : ℚ
  complexity_max : Nat
deriving DecidableEq

/-- FileStats.to_dict.  The HAS_LIZARD module flag is passed
explicitly.  "ext" is the first key of the extensions counter (first
occurrence in insertion order), "words" the sum of all counter values,
and "avg_line_len" stats_summary.get("mean", 0). -/
def FileStats.to_dict (hasLizard : Bool) (s : FileStats) : FileDict :=
  { path := s.relpath
    name := s.filename
    ext := s.extensions.headD ""
    size := s.size
    lines := s.line_count
    chars := s.char_count
    words := s.word_counter.length
    avg_line_len := match s.stats_summary with | none => 0 | some sm => sm.mean
    is_binary := s.skipped
    complexity_avg :=
      if hasLizard && s.skipped == 0 && decide (s.functions_count > 0) then
        s.complexity_avg
      else 0
    complexity_max :=
      if hasLizard && s.skipped == 0 && decide (s.functions_count > 0) then
        s.complexity_max
      else 0 }

-- ==========================================
-- Utility functions of the source
-- ==========================================

/-- is_binary_file: extension in the known-binary set, or the file
unreadable in binary mode, or a NUL byte among the first 1024 bytes. -/
def is_binary_file (f : FSFile) (filepath : String) : Bool :=
  let ext := pyExt filepath
  if BINARY_EXTENSIONS.contains (strToLower ext) then true
  else
    match f.bytes with
    | none => true
    | some chunk => (chunk.take 1024).contains 0

/-- round(x, 2) modelled as round-half-up at two decimals. -/
def round2 (x : ℚ) : ℚ := (⌊x * 100 + 1 / 2⌋ : ℚ) / 100

/-- Insert into a sorted list, ascending. -/
def insertSorted (x : Nat) : List Nat → List Nat
  | [] => [x]
  | y :: ys => if x ≤ y then x :: y :: ys else y :: insertSorted x ys

/-- Python sorted() on a list of numbers. -/
def pySorted (l : List Nat) : List Nat := l.foldr insertSorted []

/-- statistics.median of a sorted non-empty list. -/
def pyMedian (d : List Nat) : ℚ :=
  let n := d.length
  if n % 2 == 1 then (d.getD (n / 2) 0 : ℚ)
  else ((d.getD (n / 2 - 1) 0 : ℚ) + (d.getD (n / 2) 0 : ℚ)) / 2

/-- get_list_stats: min/max/mean/median of a number list, all zero
for the empty list. -/
def get_list_stats (l : List Nat) : SummaryStats :=
  match l with
  | [] => { min := 0, max := 0, mean := 0, median := 0 }
  | _ =>
    let d := pySorted l
    { min := d.headD 0
      max := d.getLastD 0
      mean := round2 ((d.sum : ℚ) / (d.length : ℚ))
      median := pyMedian d }

/-- Python max() over a non-empty list (the empty case is guarded by
the functions_count check at the call site). -/
def maxList : List Nat → Nat
  | [] => 0
  | x :: xs => xs.foldl Nat.max x

/-- analyze_complexity: no-op without lizard or on a skipped record;
a raising lizard.analyze_file call (analysis = none) is silently
ignored; otherwise functions_count is set and, when positive, the
rounded average and the maximum per-function complexity. -/
def analyze_complexity (hasLizard : Bool) (analysis : Option LizardAnalysis)
    (s : FileStats) : FileStats :=
  if !hasLizard || s.skipped != 0 then s
  else
    match analysis with
    | none => s
    | some a =>
      let s1 := { s with functions_count := a.function_list.length }
      if a.function_list.length > 0 then
        { s1 with
          complexity_avg := round2 a.average_cyclomatic_complexity
          complexity_max := maxList a.function_list }
      else s1

/-- calculate_stats: the per-file measurement routine.  The path is
root-relative.  A failing os.stat falls to the outer except and
returns the partial record; a binary file or a failing text open
returns the record marked skipped; otherwise the text metrics are
computed and analyze_complexity is applied. -/
def calculate_stats (hasLizard : Bool) (f : FSFile) (relpath : String) : FileStats :=
  let stats0 : FileStats :=
    { filepath := some relpath, relpath := some relpath,
      filename := pyBasename relpath, count := 1 }
  match f.stat with
  | none => stats0
  | some st =>
    let disk := match st.st_blocks with
      | some blocks => blocks * 512
      | none => ((st.st_size + BLOCK_SIZE - 1) / BLOCK_SIZE) * BLOCK_SIZE
    let extLow := strToLower (pyExt relpath)
    let extKey := if extLow == "" then "no_ext" else extLow
    let stats1 :=
      { stats0 with size := st.st_size, disk_usage := disk, extensions := [extKey] }
    if is_binary_file f relpath then { stats1 with skipped := 1 }
    else
      match f.text with
      | none => { stats1 with skipped := 1 }
      | some content =>
        let lines := pySplitlines content
        let lens := lines.map String.length
        let words :=
          pySplit (content.data.map (fun c => if isPunct c then ' ' else c))
        let stats2 :=
          { stats1 with
            char_count := content.data.length
            char_count_no_space :=
              (content.data.filter (fun c => !isPyWs c)).length
            line_count := lines.length
            lines_lengths := lens
            word_counter := words
            stats_summary := some (get_list_stats lens) }
        analyze_complexity hasLizard f.lizard stats2

-- ==========================================
-- IgnoreMatcher
-- ==========================================

/-- The body of the pattern loop of IgnoreMatcher.is_ignored for one
pattern: name-glob match, relative-path-glob match, or the
directory-style rule.  The isdir argument models
os.path.isdir(os.path.join(root_dir, pattern)), i.e. the state of the
filesystem under the root at evaluation time. -/
def patternHit (isdir : String → Bool) (rel_path name pattern : String) : Bool :=
  let clean_pattern := rstripSlash pattern
  fnmatch name clean_pattern || fnmatch rel_path clean_pattern ||
    ((strEndsWith pattern "/" || isdir pattern) &&
      strStartsWith rel_path (clean_pattern ++ "/"))

/-- IgnoreMatcher.is_ignored.  The path argument is the root-relative
path (os.path.relpath with separators normalised to "/" is the
identity in this model); the early return True of the source is the
existential List.any. -/
def is_ignored (isdir : String → Bool) (patterns : List String)
    (path : String) : Bool :=
  let rel_path := path
  let name := pyBasename path
  patterns.any (fun pattern => patternHit isdir rel_path name pattern)

/-- IgnoreMatcher.load_patterns: a None content models an unreadable
source (the except branch: warn and keep the patterns gathered so
far); otherwise each line is stripped, blank lines and #-comments
are dropped, and the rest are appended in order. -/
def load_patterns (content : Option String) (patterns : List String) :
    List String :=
  match content with
  | none => patterns
  | some text =>
    (splitLF text.data []).foldl
      (fun acc rawLine =>
        let line := pyStrip rawLine
        if line == "" || strStartsWith line "#" then acc else acc ++ [line])
      patterns

-- ==========================================
-- Scan driver (main)
-- ==========================================

/-- The directory tree under the scan root: named files and named
subdirectories. -/
inductive DirTree where
  | node : List (String × FSFile) → List (String × DirTree) → DirTree

/-- os.path.join for root-relative paths. -/
def joinRel (d n : String) : String := if d == "" then n else d ++ "/" ++ n

mutual
/-- All root-relative directory paths existing under a tree. -/
def dirPathsTree (relDir : String) : DirTree → List String
  | .node _ subdirs => dirPathsForest relDir subdirs

def dirPathsForest (relDir : String) : List (String × DirTree) → List String
  | [] => []
  | (n, t) :: rest =>
    joinRel relDir n :: (dirPathsTree (joinRel relDir n) t ++
      dirPathsForest relDir rest)
end

/-- os.path.isdir(os.path.join(root_dir, pattern)) for a scan rooted
at the given tree: trailing separators are immaterial to isdir. -/
def isdirOf (t : DirTree) (pattern : String) : Bool :=
  (dirPathsTree "" t).contains (rstripSlash pattern)

mutual
/-- The os.walk loop of main: measure the non-ignored files of the
current directory, then descend into the non-ignored subdirectories
(the dirs[:] filtering prunes them before any traversal). -/
def walkTree (hasLizard : Bool) (isdir : String → Bool)
    (patterns : List String) (relDir : String) : DirTree → List FileStats
  | .node files subdirs =>
    (files.filter
        (fun fp => !is_ignored isdir patterns (joinRel relDir fp.1))).map
      (fun fp => calculate_stats hasLizard fp.2 (joinRel relDir fp.1)) ++
    walkForest hasLizard isdir patterns relDir subdirs

def walkForest (hasLizard : Bool) (isdir : String → Bool)
    (patterns : List String) (relDir : String) :
    List (String × DirTree) → List FileStats
  | [] => []
  | (n, t) :: rest =>
    (if is_ignored isdir patterns (joinRel relDir n) then []
     else walkTree hasLizard isdir patterns (joinRel relDir n) t) ++
    walkForest hasLizard isdir patterns relDir rest
end

/-- The run configuration of main: the HAS_LIZARD flag, the target
tree (none when the target directory does not exist) and the three
ignore-pattern sources.  For each source, the outer Option is the
os.path.exists check and the inner Option the readability of the
file. -/
structure ScanConfig where
  hasLizard : Bool
  root : Option DirTree
  globalIgnore : Option (Option String)
  gitIgnore : Option (Option String)
  localIgnore : Option (Option String)

/-- IgnoreMatcher.__init__: concatenate the patterns of the existing
sources in order (tool-global, .gitignore, local). -/
def ignorePatterns (cfg : ScanConfig) : List String :=
  let p1 := match cfg.globalIgnore with
    | none => []
    | some c => load_patterns c []
  let p2 := match cfg.gitIgnore with
    | none => p1
    | some c => load_patterns c p1
  match cfg.localIgnore with
  | none => p2
  | some c => load_patterns c p2

/-- What the scan hands to the report writers: the project-level
total and the ordered per-file records. -/
structure ScanOutput where
  total : FileStats
  details : List FileStats

/-- main, up to report writing: abort if the target directory does
not exist, otherwise build the matcher, walk the tree and fold every
record into the project total. -/
def runScan (cfg : ScanConfig) : Except String ScanOutput :=
  match cfg.root with
  | none => Except.error "Directory not found"
  | some tree =>
    let patterns := ignorePatterns cfg
    let records := walkTree cfg.hasLizard (isdirOf tree) patterns "" tree
    Except.ok
      { total := records.foldl FileStats.add FileStats.empty
        details := records }

-- ==========================================
-- Concrete artifacts used by witnesses and counterexamples
-- ==========================================

/-- A three-line ASCII text file with content "a b c\nd e\nf". -/
def aTxtFile : FSFile :=
  { stat := some { st_size := 11, st_blocks := some 1 }
    bytes := some [97, 32, 98, 32, 99, 10, 100, 32, 101, 10, 102]
    text := some "a b c\nd e\nf"
    lizard := none }

/-- A small binary image file (classified binary by extension). -/
def imgFile : FSFile :=
  { stat := some { st_size := 4, st_blocks := some 1 }
    bytes := some [137, 80, 78, 71]
    text := none
    lizard := none }

/-- The end-to-end scenario: a root holding exactly a.txt and
img.png, with the single ignore pattern *.png coming from the
tool-global source. -/
def scenarioTree : DirTree :=
  DirTree.node [("a.txt", aTxtFile), ("img.png", imgFile)] []

def scenarioConfig : ScanConfig :=
  { hasLizard := false
    root := some scenarioTree
    globalIgnore := some (some "*.png\n")
    gitIgnore := none
    localIgnore := none }

-- ==========================================
-- Helper lemmas
-- ==========================================

theorem analyze_complexity_count (hl : Bool) (la : Option LizardAnalysis)
    (s : FileStats) : (analyze_complexity hl la s).count = s.count := by
  unfold analyze_complexity
  split
  · rfl
  · cases la with
    | none => rfl
    | some a =>
      simp only
      split <;> rfl

theorem analyze_complexity_line_count (hl : Bool) (la : Option LizardAnalysis)
    (s : FileStats) : (analyze_complexity hl la s).line_count = s.line_count := by
  unfold analyze_complexity
  split
  · rfl
  · cases la with
    | none => rfl
    | some a =>
      simp only
      split <;> rfl

theorem analyze_complexity_lines_lengths (hl : Bool) (la : Option LizardAnalysis)
    (s : FileStats) :
    (analyze_complexity hl la s).lines_lengths = s.lines_lengths := by
  unfold analyze_complexity
  split
  · rfl
  · cases la with
    | none => rfl
    | some a =>
      simp only
      split <;> rfl

theorem analyze_complexity_word_counter (hl : Bool) (la : Option LizardAnalysis)
    (s : FileStats) :
    (analyze_complexity hl la s).word_counter = s.word_counter := by
  unfold analyze_complexity
  split
  · rfl
  · cases la with
    | none => rfl
    | some a =>
      simp only
      split <;> rfl

/-- Folding records with FileStats.add accumulates any field that add
sums, starting from the initial value. -/
theorem foldl_add_numeric (g : FileStats → Nat)
    (hg : ∀ s o, g (FileStats.add s o) = g s + g o)
    (l : List FileStats) (init : FileStats) :
    g (l.foldl FileStats.add init) = g init + (l.map g).sum := by
  induction l generalizing init with
  | nil => simp
  | cons a t ih =>
    simp only [List.foldl_cons, List.map_cons, List.sum_cons, ih, hg]
    omega

theorem countEq_self (a : List String) : countEq a a = true := by
  simp [countEq]

-- ==========================================
-- C2: end-to-end scenario
-- ==========================================

/-- C2 counterexample: in the scenario (root with a.txt of three
lines and img.png, ignore pattern *.png), the project totals are not
count 2, line_count 3 with one skipped file, because the ignored
img.png is never measured at all. -/
theorem scenario_counterexample :
    ¬ ((runScan scenarioConfig).toOption.map
        (fun o => (o.total.count, o.total.line_count, o.total.skipped))
        = some (2, 3, 1)) := by decide

/-- C2 amended: the scenario yields count 1 (only a.txt is measured;
img.png is excluded by the ignore pattern before measurement),
line_count 3 and zero files flagged skipped. -/
theorem scenario_amended :
    (runScan scenarioConfig).toOption.map
      (fun o => (o.total.count, o.total.line_count, o.total.skipped))
      = some (1, 3, 0) := by decide

-- ==========================================
-- C3: purity of is_ignored
-- ==========================================

/-- C3 counterexample: with the fixed pattern list ["dist"], the same
path "dist/app.js" relative to the same root is ignored when a
directory named dist exists under the root, and not ignored when no
directory exists, so is_ignored is not a function of (path, pattern
list, root) alone. -/
theorem is_ignored_state_dependent :
    is_ignored (fun s => s == "dist") ["dist"] "dist/app.js" = true ∧
    is_ignored (fun _ => false) ["dist"] "dist/app.js" = false := by decide

/-- C3 amended: is_ignored is a pure function of the path, the
pattern list and the directory-existence state of the filesystem
under the root, and it consults that state only at the stored
patterns: two evaluations whose isdir observations agree on every
stored pattern return the same boolean. -/
theorem is_ignored_pure_amended (d d2 : String → Bool) (ps : List String)
    (p : String) (h : ∀ pat ∈ ps, d pat = d2 pat) :
    is_ignored d ps p = is_ignored d2 ps p := by
  induction ps with
  | nil => rfl
  | cons q t ih =>
    have hq : d q = d2 q := h q (by simp)
    have ht : ∀ pat ∈ t, d pat = d2 pat := fun pat hp => h pat (by simp [hp])
    show (patternHit d p (pyBasename p) q || is_ignored d t p)
        = (patternHit d2 p (pyBasename p) q || is_ignored d2 t p)
    rw [ih ht]
    unfold patternHit
    rw [hq]

/-- C3 witness: two filesystem states that agree on the stored
pattern *.log (in neither does a directory of that name exist) give
the same verdict for a.log, discharging the amended theorem at a
concrete input. -/
theorem is_ignored_pure_amended_witness :
    (∀ pat ∈ ["*.log"],
      (fun s => s == "node_modules") pat = (fun _ : String => false) pat) ∧
    is_ignored (fun s => s == "node_modules") ["*.log"] "a.log"
      = is_ignored (fun _ => false) ["*.log"] "a.log" :=
  ⟨by
    intro pat hp
    rw [List.mem_singleton] at hp
    subst hp
    decide,
   is_ignored_pure_amended _ _ _ _ (by
    intro pat hp
    rw [List.mem_singleton] at hp
    subst hp
    decide)⟩

-- ==========================================
-- C8: directory-style patterns
-- ==========================================

/-- C8: whatever directories exist on disk, the single stored pattern
dist/ makes is_ignored accept dist/app.js and dist/sub/x.txt and
reject the sibling distillery/readme.md. -/
theorem dir_rule_examples (d : String → Bool) :
    is_ignored d ["dist/"] "dist/app.js" = true ∧
    is_ignored d ["dist/"] "dist/sub/x.txt" = true ∧
    is_ignored d ["dist/"] "distillery/readme.md" = false := by
  refine ⟨?_, ?_, ?_⟩
  · show (patternHit d "dist/app.js" (pyBasename "dist/app.js") "dist/" || false)
        = true
    dsimp only [patternHit]
    rw [show rstripSlash "dist/" = "dist" from by decide]
    have h2 : fnmatch (pyBasename "dist/app.js") "dist" = false := by decide
    have h3 : fnmatch "dist/app.js" "dist" = false := by decide
    have h4 : strEndsWith "dist/" "/" = true := by decide
    have h5 : strStartsWith "dist/app.js" ("dist" ++ "/") = true := by decide
    rw [h2, h3, h4, h5]
    simp
  · show (patternHit d "dist/sub/x.txt" (pyBasename "dist/sub/x.txt") "dist/"
        || false) = true
    dsimp only [patternHit]
    rw [show rstripSlash "dist/" = "dist" from by decide]
    have h2 : fnmatch (pyBasename "dist/sub/x.txt") "dist" = false := by decide
    have h3 : fnmatch "dist/sub/x.txt" "dist" = false := by decide
    have h4 : strEndsWith "dist/" "/" = true := by decide
    have h5 : strStartsWith "dist/sub/x.txt" ("dist" ++ "/") = true := by decide
    rw [h2, h3, h4, h5]
    simp
  · show (patternHit d "distillery/readme.md" (pyBasename "distillery/readme.md")
        "dist/" || false) = false
    dsimp only [patternHit]
    rw [show rstripSlash "dist/" = "dist" from by decide]
    have h2 : fnmatch (pyBasename "distillery/readme.md") "dist" = false := by
      decide
    have h3 : fnmatch "distillery/readme.md" "dist" = false := by decide
    have h5 : strStartsWith "distillery/readme.md" ("dist" ++ "/") = false := by
      decide
    rw [h2, h3, h5]
    simp

-- ==========================================
-- C1: associativity of FileStats.add
-- ==========================================

theorem skip_step_assoc (a b c : Nat) (h : b = 0 ∨ c = 0) :
    (if c ≠ 0 then (if b ≠ 0 then a + 1 else a) + 1
     else if b ≠ 0 then a + 1 else a)
      = (if (if c ≠ 0 then b + 1 else b) ≠ 0 then a + 1 else a) := by
  rcases h with h | h <;> subst h <;> split_ifs <;> omega

theorem max_step_assoc (a b c : Nat) :
    (if c > (if b > a then b else a) then c else if b > a then b else a)
      = (if (if c > b then c else b) > a then if c > b then c else b else a) := by
  split_ifs <;> omega

/-- C1 counterexample: three records freshly produced by
calculate_stats (three binary png measurements, each with skipped =
True) violate field-by-field associativity of the merge: associating
to the left counts two extra skipped files, associating to the right
only one, because add tests other.skipped for truth instead of adding
the counter. -/
theorem merge_assoc_skipped_counterexample :
    pyStatsEq
      ((FileStats.add
          (FileStats.add (calculate_stats false imgFile "img.png")
            (calculate_stats false imgFile "img.png"))
          (calculate_stats false imgFile "img.png")))
      ((FileStats.add (calculate_stats false imgFile "img.png")
          (FileStats.add (calculate_stats false imgFile "img.png")
            (calculate_stats false imgFile "img.png"))))
      = false := by decide

/-- C1 amended: FileStats.add is associative field-by-field (under
Python attribute equality, with the Counter fields compared as dicts)
whenever B and C are not both skipped; the counterexample above shows
the both-skipped case is the only failure. -/
theorem merge_assoc_amended (A B C : FileStats)
    (h : B.skipped = 0 ∨ C.skipped = 0) :
    pyStatsEq (FileStats.add (FileStats.add A B) C)
      (FileStats.add A (FileStats.add B C)) = true := by
  unfold pyStatsEq FileStats.add
  simp only [Bool.and_eq_true, decide_eq_true_eq]
  repeat' apply And.intro
  all_goals first
    | trivial
    | omega
    | (rw [List.append_assoc]; try exact countEq_self _)
    | exact skip_step_assoc A.skipped B.skipped C.skipped h
    | exact max_step_assoc A.complexity_max B.complexity_max C.complexity_max

/-- C1 witness: two text records and one binary record, with the
first merged record unskipped, satisfy the amended associativity. -/
theorem merge_assoc_amended_witness :
    ((calculate_stats false aTxtFile "a.txt").skipped = 0 ∨
      (calculate_stats false imgFile "img.png").skipped = 0) ∧
    pyStatsEq
      (FileStats.add
        (FileStats.add (calculate_stats false aTxtFile "b.txt")
          (calculate_stats false aTxtFile "a.txt"))
        (calculate_stats false imgFile "img.png"))
      (FileStats.add (calculate_stats false aTxtFile "b.txt")
        (FileStats.add (calculate_stats false aTxtFile "a.txt")
          (calculate_stats false imgFile "img.png"))) = true :=
  ⟨Or.inl (by decide), merge_assoc_amended _ _ _ (Or.inl (by decide))⟩

-- ==========================================
-- C6: permutation invariance of the summed totals
-- ==========================================

/-- C6: folding any permutation of a collection of records into a
fresh aggregate yields the same total line, char and size counts. -/
theorem merge_totals_perm (l l2 : List FileStats) (h : l.Perm l2) :
    (l.foldl FileStats.add FileStats.empty).line_count
        = (l2.foldl FileStats.add FileStats.empty).line_count ∧
    (l.foldl FileStats.add FileStats.empty).char_count
        = (l2.foldl FileStats.add FileStats.empty).char_count ∧
    (l.foldl FileStats.add FileStats.empty).size
        = (l2.foldl FileStats.add FileStats.empty).size := by
  refine ⟨?_, ?_, ?_⟩
  · rw [foldl_add_numeric (fun s => s.line_count) (fun s o => rfl) l,
      foldl_add_numeric (fun s => s.line_count) (fun s o => rfl) l2,
      (h.map (fun s => s.line_count)).sum_eq]
  · rw [foldl_add_numeric (fun s => s.char_count) (fun s o => rfl) l,
      foldl_add_numeric (fun s => s.char_count) (fun s o => rfl) l2,
      (h.map (fun s => s.char_count)).sum_eq]
  · rw [foldl_add_numeric (fun s => s.size) (fun s o => rfl) l,
      foldl_add_numeric (fun s => s.size) (fun s o => rfl) l2,
      (h.map (fun s => s.size)).sum_eq]

/-- C6 witness: swapping a two-record collection leaves the totals
unchanged. -/
theorem merge_totals_perm_witness :
    ([calculate_stats false aTxtFile "a.txt",
        calculate_stats false imgFile "img.png"].Perm
      [calculate_stats false imgFile "img.png",
        calculate_stats false aTxtFile "a.txt"]) ∧
    (([calculate_stats false aTxtFile "a.txt",
        calculate_stats false imgFile "img.png"].foldl FileStats.add
        FileStats.empty).line_count
      = ([calculate_stats false imgFile "img.png",
          calculate_stats false aTxtFile "a.txt"].foldl FileStats.add
          FileStats.empty).line_count ∧
     ([calculate_stats false aTxtFile "a.txt",
        calculate_stats false imgFile "img.png"].foldl FileStats.add
        FileStats.empty).char_count
      = ([calculate_stats false imgFile "img.png",
          calculate_stats false aTxtFile "a.txt"].foldl FileStats.add
          FileStats.empty).char_count ∧
     ([calculate_stats false aTxtFile "a.txt",
        calculate_stats false imgFile "img.png"].foldl FileStats.add
        FileStats.empty).size
      = ([calculate_stats false imgFile "img.png",
          calculate_stats false aTxtFile "a.txt"].foldl FileStats.add
          FileStats.empty).size) :=
  ⟨List.Perm.swap _ _ [], merge_totals_perm _ _ (List.Perm.swap _ _ [])⟩

-- ==========================================
-- C10: line_count / lines_lengths invariant
-- ==========================================

/-- C10: every record produced by calculate_stats has line_count
equal to the length of lines_lengths (both zero for binary or
unreadable files), and FileStats.add preserves this invariant. -/
theorem line_count_inv_thm :
    (∀ (hl : Bool) (f : FSFile) (p : String),
        (calculate_stats hl f p).line_count
          = (calculate_stats hl f p).lines_lengths.length) ∧
    (∀ a b : FileStats,
        a.line_count = a.lines_lengths.length →
        b.line_count = b.lines_lengths.length →
        (FileStats.add a b).line_count
          = (FileStats.add a b).lines_lengths.length) := by
  constructor
  · intro hl f p
    unfold calculate_stats
    cases f.stat with
    | none => rfl
    | some st =>
      dsimp only
      split
      · rfl
      · cases f.text with
        | none => rfl
        | some content =>
          dsimp only
          rw [analyze_complexity_line_count, analyze_complexity_lines_lengths]
          simp
  · intro a b ha hb
    simp [FileStats.add, ha, hb]

/-- C10 witness: the invariant holds for a merge of one text record
and one binary record. -/
theorem line_count_inv_witness :
    ((calculate_stats false aTxtFile "a.txt").line_count
        = (calculate_stats false aTxtFile "a.txt").lines_lengths.length ∧
      (calculate_stats false imgFile "img.png").line_count
        = (calculate_stats false imgFile "img.png").lines_lengths.length) ∧
    (FileStats.add (calculate_stats false aTxtFile "a.txt")
        (calculate_stats false imgFile "img.png")).line_count
      = (FileStats.add (calculate_stats false aTxtFile "a.txt")
          (calculate_stats false imgFile "img.png")).lines_lengths.length :=
  ⟨⟨by decide, by decide⟩,
   line_count_inv_thm.2 _ _ (by decide) (by decide)⟩

-- ==========================================
-- C9: failure containment
-- ==========================================

/-- C9: the run fails exactly when the target root does not exist
(checked before any traversal); every per-file measurement returns a
record (count 1) no matter which of its file operations fail, and an
unreadable pattern source leaves the patterns gathered so far
untouched. -/
theorem failure_containment :
    (∀ cfg : ScanConfig, (runScan cfg).isOk = cfg.root.isSome) ∧
    (∀ (hl : Bool) (f : FSFile) (p : String),
        (calculate_stats hl f p).count = 1) ∧
    (∀ ps : List String, load_patterns none ps = ps) := by
  refine ⟨?_, ?_, ?_⟩
  · intro cfg
    unfold runScan
    cases cfg.root <;> rfl
  · intro hl f p
    unfold calculate_stats
    cases f.stat with
    | none => rfl
    | some st =>
      dsimp only
      split
      · rfl
      · cases f.text with
        | none => rfl
        | some content =>
          dsimp only
          rw [analyze_complexity_count]
  · intro ps
    rfl

-- ==========================================
-- C4: complexity reporting without the probe
-- ==========================================

/-- A one-line python source file for which a (hypothetical) probe
reports one function of cyclomatic complexity zero, the "computed
and zero" case the spec wants kept distinguishable. -/
def pyModFile : FSFile :=
  { stat := some { st_size := 13, st_blocks := some 1 }
    bytes := some [100, 101, 102]
    text := some "def f(): pass"
    lizard := some { function_list := [0], average_cyclomatic_complexity := 0 } }

/-- C4 counterexample: with the probe absent, to_dict exports the
numeric zero for the complexity metric, identical to the export of
the same file measured with the probe present and a computed
complexity of zero, so absence of complexity data is not
distinguishable from measured zero in the dictionary form. -/
theorem complexity_dict_counterexample :
    (FileStats.to_dict false
        (calculate_stats false pyModFile "m.py")).complexity_max
      = (FileStats.to_dict true
          (calculate_stats true pyModFile "m.py")).complexity_max ∧
    (FileStats.to_dict false
        (calculate_stats false pyModFile "m.py")).complexity_max = 0 ∧
    (calculate_stats true pyModFile "m.py").functions_count = 1 ∧
    (calculate_stats true pyModFile "m.py").skipped = 0 := by
  decide

/-- C4 amended: when the complexity capability is unavailable, every
exported dictionary reports complexity_avg and complexity_max as the
numeric 0; absence is rendered as zero, not as a distinct
"not computed" marker. -/
theorem complexity_dict_amended (s : FileStats) :
    (FileStats.to_dict false s).complexity_avg = 0 ∧
    (FileStats.to_dict false s).complexity_max = 0 := by
  constructor <;> simp [FileStats.to_dict]

-- ==========================================
-- C5: word-frequency normalization
-- ==========================================

/-- A text file whose two words differ only in letter case. -/
def mixedCaseFile : FSFile :=
  { stat := some { st_size := 5, st_blocks := some 1 }
    bytes := some [65, 98, 32, 97, 98]
    text := some "Ab ab"
    lizard := none }

/-- C5 counterexample: the file "Ab ab" is counted under the two
distinct keys "Ab" and "ab" (one occurrence each, not two under a
shared case-folded key), because calculate_stats never lower-cases
the words. -/
theorem word_case_counterexample :
    (calculate_stats false mixedCaseFile "note.txt").word_counter.count "Ab"
        = 1 ∧
    (calculate_stats false mixedCaseFile "note.txt").word_counter.count "ab"
        = 1 ∧
    ¬ ((calculate_stats false mixedCaseFile "note.txt").word_counter.count "ab"
        = 2) := by
  decide

/-- Soundness of the Python split: every word produced by pySplitGo
is non-empty, contains no whitespace character, and inherits any
property Q holding of every non-whitespace input character. -/
theorem pySplitGo_sound (Q : Char → Bool) :
    ∀ (l cur : List Char),
      (∀ c ∈ cur, isPyWs c = false ∧ Q c = true) →
      (∀ c ∈ l, isPyWs c = true ∨ Q c = true) →
      ∀ w ∈ pySplitGo l cur,
        w.data ≠ [] ∧ ∀ c ∈ w.data, isPyWs c = false ∧ Q c = true := by
  intro l
  induction l with
  | nil =>
    intro cur hcur _ w hw
    cases cur with
    | nil => simp [pySplitGo] at hw
    | cons a as =>
      have hw2 : w = String.mk ((a :: as).reverse) := by
        simpa [pySplitGo] using hw
      subst hw2
      refine ⟨by show (a :: as).reverse ≠ []; simp, ?_⟩
      intro c hc
      have hc2 : c ∈ (a :: as).reverse := hc
      exact hcur c (List.mem_reverse.mp hc2)
  | cons c rest ih =>
    intro cur hcur hl w hw
    have hc := hl c (by simp)
    by_cases hws : isPyWs c
    · unfold pySplitGo at hw
      rw [if_pos hws] at hw
      by_cases hne : cur.isEmpty
      · rw [if_pos hne] at hw
        exact ih [] (by simp) (fun d hd => hl d (by simp [hd])) w hw
      · rw [if_neg hne] at hw
        rcases List.mem_cons.mp hw with hw1 | hw2
        · subst hw1
          cases cur with
          | nil => simp at hne
          | cons a as =>
            refine ⟨by show (a :: as).reverse ≠ []; simp, ?_⟩
            intro d hd
            have hd2 : d ∈ (a :: as).reverse := hd
            exact hcur d (List.mem_reverse.mp hd2)
        · exact ih [] (by simp) (fun d hd => hl d (by simp [hd])) w hw2
    · unfold pySplitGo at hw
      rw [if_neg hws] at hw
      refine ih (c :: cur) ?_ (fun d hd => hl d (by simp [hd])) w hw
      intro d hd
      rcases List.mem_cons.mp hd with hd1 | hd2
      · subst hd1
        refine ⟨by simpa using hws, ?_⟩
        rcases hc with h1 | h1
        · exact absurd h1 hws
        · exact h1
      · exact hcur d hd2

/-- C5 amended: the word table built for a non-binary readable file
is punctuation- and whitespace-normalized but case-sensitive: every
counted word is non-empty and contains neither punctuation nor
whitespace characters (punctuation having been replaced by spaces
before splitting); words differing in case remain distinct keys. -/
theorem word_normalization_amended (hl : Bool) (f : FSFile) (p : String)
    (st : StatResult) (content : String) (w : String)
    (hstat : f.stat = some st) (hbin : is_binary_file f p = false)
    (htext : f.text = some content)
    (hw : w ∈ (calculate_stats hl f p).word_counter) :
    w.data ≠ [] ∧ ∀ c ∈ w.data, isPunct c = false ∧ isPyWs c = false := by
  have hwc : (calculate_stats hl f p).word_counter
      = pySplit (content.data.map (fun c => if isPunct c then ' ' else c)) := by
    unfold calculate_stats
    rw [hstat]
    dsimp only
    rw [if_neg (by simp [hbin]), htext]
    dsimp only
    rw [analyze_complexity_word_counter]
  rw [hwc] at hw
  have hsound := pySplitGo_sound (fun c => !isPunct c)
    (content.data.map (fun c => if isPunct c then ' ' else c)) []
    (by simp)
    (by
      intro c hc
      rcases List.mem_map.mp hc with ⟨a, _, ha⟩
      by_cases hp : isPunct a
      · left
        rw [← ha]
        simp [hp, isPyWs]
      · right
        rw [← ha]
        simp [hp])
    w hw
  refine ⟨hsound.1, ?_⟩
  intro c hc
  have h2 := hsound.2 c hc
  exact ⟨by simpa using h2.2, h2.1⟩

/-- C5 witness: the word "Ab" counted for the mixed-case file is
non-empty and free of punctuation and whitespace. -/
theorem word_normalization_amended_witness :
    (mixedCaseFile.stat = some { st_size := 5, st_blocks := some 1 } ∧
      is_binary_file mixedCaseFile "note.txt" = false ∧
      mixedCaseFile.text = some "Ab ab" ∧
      "Ab" ∈ (calculate_stats false mixedCaseFile "note.txt").word_counter) ∧
    ("Ab".data ≠ [] ∧ ∀ c ∈ "Ab".data, isPunct c = false ∧ isPyWs c = false) :=
  ⟨⟨rfl, by decide, rfl, by decide⟩,
   word_normalization_amended false mixedCaseFile "note.txt"
     { st_size := 5, st_blocks := some 1 } "Ab ab" "Ab" rfl (by decide) rfl
     (by decide)⟩

-- ==========================================
-- C7: binary classification
-- ==========================================

/-- C7: a NUL byte among the first 1024 bytes always classifies the
file binary, whatever its extension; so does a known-binary extension
or an unreadable file; and a binary classification marks the measured
record skipped with no text metrics. -/
theorem binary_classification (hl : Bool) (f : FSFile) (p : String) :
    (BINARY_EXTENSIONS.contains (strToLower (pyExt p)) = true →
      is_binary_file f p = true) ∧
    (f.bytes = none → is_binary_file f p = true) ∧
    (∀ bs, f.bytes = some bs → (bs.take 1024).contains 0 = true →
      is_binary_file f p = true) ∧
    (∀ st, f.stat = some st → is_binary_file f p = true →
      (calculate_stats hl f p).skipped = 1 ∧
      (calculate_stats hl f p).line_count = 0 ∧
      (calculate_stats hl f p).char_count = 0 ∧
      (calculate_stats hl f p).word_counter = []) := by
  refine ⟨?_, ?_, ?_, ?_⟩
  · intro hext
    dsimp only [is_binary_file]
    rw [if_pos hext]
  · intro hb
    dsimp only [is_binary_file]
    rw [hb]
    by_cases hext : BINARY_EXTENSIONS.contains (strToLower (pyExt p)) = true
    · rw [if_pos hext]
    · rw [if_neg hext]
  · intro bs hb hz
    dsimp only [is_binary_file]
    rw [hb]
    by_cases hext : BINARY_EXTENSIONS.contains (strToLower (pyExt p)) = true
    · rw [if_pos hext]
    · rw [if_neg hext]
      exact hz
  · intro st hstat hbin
    unfold calculate_stats
    rw [hstat]
    dsimp only
    rw [if_pos hbin]
    exact ⟨rfl, rfl, rfl, rfl⟩

/-- A file with a NUL byte in its content but a non-binary
extension. -/
def nulFile : FSFile :=
  { stat := some { st_size := 3, st_blocks := some 1 }
    bytes := some [1, 0, 2]
    text := none
    lizard := none }

/-- C7 witness: the NUL-containing file with the unknown extension
.xyz is classified binary and its record is skipped. -/
theorem binary_classification_witness :
    (nulFile.bytes = some [1, 0, 2] ∧
      ([1, 0, 2].take 1024).contains 0 = true ∧
      nulFile.stat = some { st_size := 3, st_blocks := some 1 }) ∧
    is_binary_file nulFile "data.xyz" = true ∧
    (calculate_stats false nulFile "data.xyz").skipped = 1 :=
  ⟨⟨rfl, by decide, rfl⟩,
   (binary_classification false nulFile "data.xyz").2.2.1 [1, 0, 2] rfl
     (by decide),
   ((binary_classification false nulFile "data.xyz").2.2.2
       { st_size := 3, st_blocks := some 1 } rfl
       ((binary_classification false nulFile "data.xyz").2.2.1 [1, 0, 2] rfl
         (by decide))).1⟩
